import Mathlib

/-!
Verification of the `type-handle` wrapper library (src/lib.rs).

The development shallowly embeds the two wrapper types and the operations the
specification talks about:

* `Handle T` — the owning value wrapper `Handle<T>(T, PhantomData<*const ()>)`.
  Rust drop behaviour is made observable: every operation that could run a `T`
  teardown returns, alongside its result, a `List T` trace of the values whose
  `Drop` glue actually ran.  The primitives `mem::swap`, `mem::replace` and
  `mem::forget` are modelled individually (`memSwap`, `memForget`), each with
  the drop trace Rust documents for it (none of them drops anything), so the
  traces of the compound operations are assembled from the primitives exactly
  as the source assembles the calls.

* `RCHandle T` — the pointer wrapper `RCHandle<T>(ptr::NonNull<T>)`.  Raw
  pointers are addresses (`Addr := Nat`) with `0` playing the role of the null
  pointer; `NonNull` is an address bundled with a proof it is not `0`, exactly
  mirroring `ptr::NonNull`.  Memory is a heap `Addr → T`; operations that in
  the source may read or write memory are passed the heap explicitly and
  return the (possibly updated) heap, so frame properties ("does not modify
  any memory") are literal equalities on heaps.  Rust references are modelled
  as non-null addresses into the heap.
-/

/-- Machine addresses: the value of a raw pointer.  `0` is the null pointer. -/
abbrev Addr := Nat

/-- Model of `core::ptr::NonNull<T>`: an address together with the invariant
that it is not null.  The type parameter of the Rust original is phantom with
respect to the stored data, so it is dropped here. -/
structure NonNull where
  addr : Addr
  ne : addr ≠ 0

/-- Memory: a total map from addresses to `T` values.  All claims below only
ever dereference addresses the surrounding theorem supplies, so a total heap
suffices and liveness side conditions do not arise. -/
abbrev Heap (T : Type) := Addr → T

/-- Read the value stored at an address. -/
def heapRead {T : Type} (hp : Heap T) (a : Addr) : T := hp a

/-- Store a value at an address, leaving every other address unchanged. -/
def heapWrite {T : Type} (hp : Heap T) (a : Addr) (v : T) : Heap T :=
  fun x => if x = a then v else hp x

/-- Model of `ptr::NonNull::new`: `None` exactly when the address is null,
otherwise the address packaged with its non-nullness. -/
def NonNull.new (p : Addr) : Option NonNull :=
  if h : p = 0 then none else some ⟨p, h⟩

/-- Model of `mem::swap(&mut a, &mut b)`: afterwards the first slot holds `b`
and the second holds `a`.  `mem::swap` moves the two values and drops
neither, hence the empty drop trace. -/
def memSwap {T : Type} (a b : T) : (T × T) × List T := ((b, a), [])

/-- `Handle<T>(T, PhantomData<*const ()>)`: the embedded instance plus the
zero-sized marker field (the marker only suppresses auto trait derivation). -/
structure Handle (T : Type) where
  val : T
  phantom : Unit

/-- Model of `mem::forget(handle)`: the handle is consumed and its drop glue
(its embedded `T`'s teardown) is *not* run, hence the empty drop trace. -/
def memForget {T : Type} (_h : Handle T) : List T := []

/-- Drop glue of `Handle<T>`: the source declares no `impl Drop for Handle`,
so Rust's default glue runs, which drops the single non-zero-sized field —
the embedded `T`.  The trace records that one `T` teardown. -/
def Handle.dropGlue {T : Type} (h : Handle T) : List T := [h.val]

/-- `Handle::from_instance`: `Handle(t, PhantomData)`.  A plain constructor
application; it moves `t` and runs no teardown. -/
def Handle.from_instance {T : Type} (t : T) : Handle T := ⟨t, ()⟩

/-- `Handle::replace`: `mem::swap(&mut self.0, t); self`.  The handle and the
external slot exchange contents; the returned pair is (new handle, new slot
content) and the trace is the swap's (empty) trace. -/
def Handle.replace {T : Type} (self : Handle T) (t : T) :
    (Handle T × T) × List T :=
  let s := memSwap self.val t
  (({ self with val := s.1.1 }, s.1.2), s.2)

/-- `Handle::into_instance`:
`let r = mem::replace(&mut self.0, mem::zeroed()); mem::forget(self); r`.
`zeroed` stands for the arbitrary placeholder `mem::zeroed()` writes into the
abandoned slot; `mem::replace` hands back the previous embedded value without
dropping it, and `mem::forget` then discards the shell without running its
drop glue.  The trace is exactly the forget's (empty) trace. -/
def Handle.into_instance {T : Type} (self : Handle T) (zeroed : T) :
    T × List T :=
  let r := self.val
  let shell : Handle T := { self with val := zeroed }
  (r, memForget shell)

/-- `PartialEq for Handle<T>`: `self.instance().eq(other.instance())` — the
comparison is delegated to `T`'s own equality `eqT` on the embedded values. -/
def Handle.eq {T : Type} (eqT : T → T → Bool) (a b : Handle T) : Bool :=
  eqT a.val b.val

/-- Model of `transmute_ref_mut`: the source casts the reference's pointer
value unchanged (`&mut *(from as *mut FromT as *mut ToT)`), so on the address
model it is the identity on the address. -/
def transmute_ref_mut (r : NonNull) : NonNull := r

/-- `Handle::from_ref_mut`: `transmute_ref_mut(t)` — a `&mut T` reinterpreted
in place as a `&mut Handle<T>`; the address is preserved, nothing is copied. -/
def Handle.from_ref_mut (r : NonNull) : NonNull := transmute_ref_mut r

/-- Reading the wrapped `T` through a `&Handle<T>` view: `Deref` returns
`&self.0`, the embedded field, which occupies the same address as the handle
itself (single non-zero-sized field at offset 0), so the read hits the
original memory. -/
def Handle.read_through {T : Type} (r : NonNull) (hp : Heap T) : T :=
  heapRead hp r.addr

/-- Writing the wrapped `T` through a `&mut Handle<T>` view: `DerefMut`
returns `&mut self.0` at the handle's own address, so the write lands in the
original memory. -/
def Handle.write_through {T : Type} (r : NonNull) (v : T) (hp : Heap T) :
    Heap T :=
  heapWrite hp r.addr v

/-- `RCHandle<T>`: `#[repr(transparent)] struct RCHandle<T>(ptr::NonNull<T>)`. -/
structure RCHandle (T : Type) where
  ptr : NonNull

/-- Model of `Option::unwrap_unchecked`: the caller must prove the option is
occupied (the unchecked precondition of the Rust original). -/
def unwrapUnchecked {α : Type} (o : Option α) (h : o.isSome) : α := o.get h

/-- `RCHandle::from_ptr`: `ptr::NonNull::new(ptr).map(Self)`.  Reads and
writes no memory, so it is a pure function of the pointer value. -/
def RCHandle.from_ptr (T : Type) (p : Addr) : Option (RCHandle T) :=
  (NonNull.new p).map RCHandle.mk

/-- `RCHandle::from_unshared_ptr`:
`ptr::NonNull::new(ptr).map(|ptr| { unsafe { let _ = ptr.as_ref(); } Self(ptr) })`.
The closure dereferences the pointee once (the discarded `heapRead`) and then
wraps the same pointer.  The heap is threaded through and returned so that
the absence of any memory effect is an explicit equality. -/
def RCHandle.from_unshared_ptr (T : Type) (p : Addr) (hp : Heap T) :
    Option (RCHandle T) × Heap T :=
  ((NonNull.new p).map (fun n =>
    let _ := heapRead hp n.addr
    RCHandle.mk n), hp)

/-- `RCHandle::from_ref`: `unsafe { Self::from_ptr(t).unwrap_unchecked() }`.
The `&mut T` argument is a reference, hence a non-null address, which
discharges the `unwrap_unchecked` precondition exactly as the source's safety
comment argues. -/
def RCHandle.from_ref (T : Type) (r : NonNull) : RCHandle T :=
  unwrapUnchecked (RCHandle.from_ptr T r.addr) (by
    unfold RCHandle.from_ptr NonNull.new
    rw [dif_neg r.ne]
    rfl)

/-- `RCHandle::as_ptr`: `&self.0` — exposes the stored non-null pointer. -/
def RCHandle.as_ptr {T : Type} (self : RCHandle T) : NonNull := self.ptr

/-- `RCHandle::as_ref`: `unsafe { self.0.as_ref() }` — dereferences the
stored pointer in the heap. -/
def RCHandle.as_ref {T : Type} (self : RCHandle T) (hp : Heap T) : T :=
  heapRead hp self.ptr.addr

/-- Writing through the `&mut T` returned by `RCHandle::as_mut`
(`unsafe { self.0.as_mut() }`): the write lands at the stored address. -/
def RCHandle.as_mut_write {T : Type} (self : RCHandle T) (v : T)
    (hp : Heap T) : Heap T :=
  heapWrite hp self.ptr.addr v

/-- `RCHandle::into_ptr`: `let ptr = self.0.as_ptr(); mem::forget(self); ptr`.
Returns the raw address; the `mem::forget` runs no teardown and nothing
touches the heap, so the heap comes back unchanged and the drop trace is
empty. -/
def RCHandle.into_ptr {T : Type} (self : RCHandle T) (hp : Heap T) :
    (Addr × Heap T) × List T :=
  ((self.ptr.addr, hp), [])

/-- `Clone for RCHandle<T>`:
`let ptr = self.0; unsafe { let _ = ptr.as_ref(); } Self(ptr)`.
Dereferences the pointee once (discarded) and wraps the identical pointer;
the heap is returned to make the absence of a memory effect explicit. -/
def RCHandle.clone {T : Type} (self : RCHandle T) (hp : Heap T) :
    RCHandle T × Heap T :=
  let p := self.ptr
  let _ := heapRead hp p.addr
  (RCHandle.mk p, hp)

/-- Drop glue of `RCHandle<T>`: the source declares no `impl Drop for
RCHandle`, so only the fields' glue runs; the single field `ptr::NonNull<T>`
is a `Copy` pointer with no drop glue, and dropping a raw pointer never
touches its pointee.  Dropping therefore leaves the heap unchanged and runs
no `T` teardown. -/
def RCHandle.dropGlue {T : Type} (_self : RCHandle T) (hp : Heap T) :
    Heap T × List T :=
  (hp, [])

/-- `PartialEq for RCHandle<T>`: `self.as_ref().eq(other.as_ref())` — the
comparison is delegated to `T`'s equality `eqT` on the two pointees. -/
def RCHandle.eq {T : Type} (eqT : T → T → Bool) (hp : Heap T)
    (a b : RCHandle T) : Bool :=
  eqT (a.as_ref hp) (b.as_ref hp)

/-- Helper: `from_ref` produces exactly the wrapper around the reference's
address; the `unwrap_unchecked` branch for `None` is never reached. -/
theorem RCHandle.from_ref_eq {T : Type} (r : NonNull) :
    RCHandle.from_ref T r = ⟨r⟩ := by
  unfold RCHandle.from_ref unwrapUnchecked RCHandle.from_ptr NonNull.new
  simp [dif_neg r.ne]

/-- C1: wrapping a value into the owning wrapper (`Handle::from_instance`)
and unwrapping it (`Handle::into_instance`) returns the same value, and no
`T` teardown runs during the round trip (empty drop trace), whatever
placeholder `mem::zeroed()` produces. -/
theorem c1_value_roundtrip_no_drop {T : Type} (v zeroed : T) :
    Handle.into_instance (Handle.from_instance v) zeroed = (v, []) := rfl

/-- C2: `RCHandle::from_ptr` and `RCHandle::from_unshared_ptr` both yield
`none` exactly on the null pointer and otherwise a wrapper whose `as_ptr`
value equals the input pointer; the shared path leaves the heap unchanged. -/
theorem c2_null_handling_both_paths {T : Type} (p : Addr) (hp : Heap T) :
    ((RCHandle.from_ptr T p).map (fun h => h.as_ptr.addr)
        = if p = 0 then none else some p)
    ∧ (((RCHandle.from_unshared_ptr T p hp).1).map (fun h => h.as_ptr.addr)
        = if p = 0 then none else some p)
    ∧ (RCHandle.from_unshared_ptr T p hp).2 = hp := by
  refine ⟨?_, ?_, rfl⟩
  · unfold RCHandle.from_ptr NonNull.new
    by_cases h : p = 0 <;> simp [h, RCHandle.as_ptr]
  · unfold RCHandle.from_unshared_ptr NonNull.new
    by_cases h : p = 0 <;> simp [h, RCHandle.as_ptr]

/-- C3: `Handle::replace` on a wrapper owning `a`, given a slot holding `b`,
returns the wrapper owning `b` with the slot left holding `a`, and the drop
trace is empty: neither value's teardown runs. -/
theorem c3_replace_swaps_without_drop {T : Type} (a b : T) :
    Handle.replace (Handle.from_instance a) b
      = ((Handle.from_instance b, a), []) := rfl

/-- C4: `Clone for RCHandle` yields a second wrapper over the same pointer
value without touching memory, and consuming the clone via `into_ptr`
returns exactly that pointer value, leaves the heap unchanged, runs no
teardown, and `into_ptr` on the original likewise returns its held pointer. -/
theorem c4_clone_then_into_ptr_frame {T : Type} (h : RCHandle T)
    (hp : Heap T) :
    (RCHandle.clone h hp).1.as_ptr = h.as_ptr
    ∧ (RCHandle.clone h hp).2 = hp
    ∧ (RCHandle.into_ptr (RCHandle.clone h hp).1 hp).1.1 = h.as_ptr.addr
    ∧ (RCHandle.into_ptr (RCHandle.clone h hp).1 hp).1.2 = hp
    ∧ (RCHandle.into_ptr (RCHandle.clone h hp).1 hp).2 = []
    ∧ (RCHandle.into_ptr h hp).1.1 = h.as_ptr.addr :=
  ⟨rfl, rfl, rfl, rfl, rfl, rfl⟩

/-- C5: equality of two `Handle`s constructed around `a` and `b` is exactly
`T`'s own equality applied to `a` and `b`; equality of two `RCHandle`s is
`T`'s equality applied to the two pointees. -/
theorem c5_eq_delegates_to_wrapped {T : Type} (eqT : T → T → Bool)
    (a b : T) (hp : Heap T) (r1 r2 : NonNull) :
    (Handle.eq eqT (Handle.from_instance a) (Handle.from_instance b)
        = eqT a b)
    ∧ (RCHandle.eq eqT hp (RCHandle.from_ref T r1) (RCHandle.from_ref T r2)
        = eqT (heapRead hp r1.addr) (heapRead hp r2.addr)) := by
  refine ⟨rfl, ?_⟩
  rw [RCHandle.from_ref_eq, RCHandle.from_ref_eq]
  rfl

/-- C6: `RCHandle::from_ref` agrees with the raw-pointer path
`RCHandle::from_ptr` applied to the reference's address: the latter is
always occupied (never `none`) and holds exactly the wrapper `from_ref`
builds, whose stored pointer is the reference's address. -/
theorem c6_from_ref_refines_from_ptr {T : Type} (r : NonNull) :
    RCHandle.from_ptr T r.addr = some (RCHandle.from_ref T r)
    ∧ (RCHandle.from_ref T r).as_ptr = r := by
  rw [RCHandle.from_ref_eq]
  constructor
  · unfold RCHandle.from_ptr NonNull.new
    rw [dif_neg r.ne]
    rfl
  · rfl

/-- C7: for the reference-wrapping forms, a write through the wrapper's
mutable access is immediately visible through the wrapper's read access and
through a direct read of the original memory at the reference's address —
the wrapper aliases the original memory (both for `Handle::from_ref_mut`
and for an `RCHandle` built from a reference, via `as_mut`/`as_ref`). -/
theorem c7_reference_wrappers_alias {T : Type} (r : NonNull) (v : T)
    (hp : Heap T) :
    (Handle.read_through (Handle.from_ref_mut r)
        (Handle.write_through (T := T) (Handle.from_ref_mut r) v hp) = v
      ∧ heapRead (Handle.write_through (T := T) (Handle.from_ref_mut r) v hp)
          r.addr = v)
    ∧ ((RCHandle.from_ref T r).as_ref
        ((RCHandle.from_ref T r).as_mut_write v hp) = v
      ∧ heapRead ((RCHandle.from_ref T r).as_mut_write v hp) r.addr = v) := by
  rw [RCHandle.from_ref_eq]
  refine ⟨⟨?_, ?_⟩, ?_, ?_⟩ <;>
    simp [Handle.read_through, Handle.write_through, Handle.from_ref_mut,
      transmute_ref_mut, RCHandle.as_ref, RCHandle.as_mut_write,
      heapRead, heapWrite]

/-- C9: `RCHandle` has no destructor: its drop glue leaves the heap
untouched and runs no `T` teardown, which is exactly the heap effect and
trace of `into_ptr`; the two differ only in `into_ptr` returning the held
pointer value. -/
theorem c9_drop_is_noop_like_into_ptr {T : Type} (h : RCHandle T)
    (hp : Heap T) :
    RCHandle.dropGlue h hp = (hp, [])
    ∧ (RCHandle.dropGlue h hp).1 = (RCHandle.into_ptr h hp).1.2
    ∧ (RCHandle.dropGlue h hp).2 = (RCHandle.into_ptr h hp).2
    ∧ (RCHandle.into_ptr h hp).1.1 = h.as_ptr.addr :=
  ⟨rfl, rfl, rfl, rfl⟩

/-- C10: `RCHandle::from_ptr` and `RCHandle::from_unshared_ptr` return
observably identical results on every pointer, and the shared path leaves
the heap unchanged (its extra step only dereferences the pointee once and
discards the value). -/
theorem c10_paths_observably_identical {T : Type} (p : Addr) (hp : Heap T) :
    (RCHandle.from_unshared_ptr T p hp).1 = RCHandle.from_ptr T p
    ∧ (RCHandle.from_unshared_ptr T p hp).2 = hp :=
  ⟨rfl, rfl⟩
